import Mathlib

/-!
Shallow embedding of the core functions of the ISS tracker application
(`iss_tracker_app.py`): `calc_speed_3d`, `current_location` and
`find_location`, together with models of the Python library operations they
rely on (`int()`, list indexing, string slicing, `time.strptime` with format
`%Y-%jT%H:%M:%S`, and `time.mktime`, written out below as conversion from a
parsed time struct to seconds).

Floats are modelled as real numbers; the wall-clock value returned by
`time.time()` is modelled as a rational number passed in explicitly; each
function returns its result paired with the list of `logging.error` messages
it emits (debug-level logging is not modelled).  The reverse-geocoding call
in `find_location` is an external network collaborator and is passed in as a
function argument `geo` returning `none` when the looked-up object has no
`address` attribute.
-/

/-- A Python argument value as seen by `calc_speed_3d`: either a number or a
non-numeric value (such as a string), for which `x**2` raises `TypeError`. -/
inductive PyValue where
  | num (r : ℝ)
  | nonNum (s : String)

/-- Whether a `PyValue` is numeric. -/
def PyValue.isNum : PyValue → Bool
  | .num _ => true
  | .nonNum _ => false

/-- The `logging.error` message emitted by `calc_speed_3d` on `TypeError`. -/
def errNonNumerical : String :=
  "Non numerical values detected. Calculation cannot be performed"

/-- Embedding of `calc_speed_3d(x, y, z)`: `math.sqrt(x**2 + y**2 + z**2)`;
if any argument is non-numeric the exponentiation raises `TypeError`, which
is caught, logged, and turned into the result `0.0`. -/
noncomputable def calc_speed_3d (x y z : PyValue) : ℝ × List String :=
  match x, y, z with
  | .num a, .num b, .num c => (Real.sqrt (a ^ 2 + b ^ 2 + c ^ 2), [])
  | _, _, _ => (0.0, [errNonNumerical])

/-- One record of the ephemeris list handed to `current_location`: the string
stored under the epoch key (`item[key_string]`) plus an opaque payload
standing for the rest of the dictionary, so that distinct records compare
as distinct. -/
structure Record where
  epoch : String
  payload : ℕ
  deriving DecidableEq

/-- A parsed `time.struct_time` restricted to the fields produced by
`time.strptime(s, '%Y-%jT%H:%M:%S')`: year, day of year, hour, minute,
second. -/
structure TimeStruct where
  year : ℕ
  doy : ℕ
  hh : ℕ
  mm : ℕ
  ss : ℕ
  deriving DecidableEq

/-- Numeric value of a list of decimal digit characters. -/
def numFromChars (cs : List Char) : ℕ :=
  cs.foldl (fun a c => 10 * a + (c.toNat - 48)) 0

/-- Model of `time.strptime(s, '%Y-%jT%H:%M:%S')` on the fixed-width
`yyyy-dddThh:mm:ss` layout used by the feed: four year digits, a dash, three
day-of-year digits, `T`, and a `hh:mm:ss` clock, with the range checks the
C `strptime`-style parser performs (day of year 1..366, hour 0..23, minute
0..59, second 0..61).  Any other shape raises `ValueError`, modelled by
`none`. -/
def strptimeYJHMS (s : String) : Option TimeStruct :=
  match s.data with
  | [y1, y2, y3, y4, c1, j1, j2, j3, c2, h1, h2, c3, m1, m2, c4, s1, s2] =>
    if c1 = '-' ∧ c2 = 'T' ∧ c3 = ':' ∧ c4 = ':' ∧
        ([y1, y2, y3, y4, j1, j2, j3, h1, h2, m1, m2, s1, s2].all Char.isDigit) then
      let year := numFromChars [y1, y2, y3, y4]
      let doy := numFromChars [j1, j2, j3]
      let hh := numFromChars [h1, h2]
      let mm := numFromChars [m1, m2]
      let ss := numFromChars [s1, s2]
      if 1 ≤ doy ∧ doy ≤ 366 ∧ hh ≤ 23 ∧ mm ≤ 59 ∧ ss ≤ 61 then
        some ⟨year, doy, hh, mm, ss⟩
      else none
    else none
  | _ => none

/-- Leap days occurring strictly before January 1 of year `y` (proleptic
Gregorian calendar). -/
def leapsBefore (y : ℤ) : ℤ :=
  (y - 1) / 4 - (y - 1) / 100 + (y - 1) / 400

/-- Model of `time.mktime` applied to a struct parsed by `strptime`:
seconds since the Unix epoch, computed for a UTC environment.  A fixed local
UTC offset would shift every value by the same constant and leave all
comparisons performed by `current_location` unchanged. -/
def epochSeconds (ts : TimeStruct) : ℤ :=
  (365 * ((ts.year : ℤ) - 1970) + leapsBefore ts.year - leapsBefore 1970
      + ((ts.doy : ℤ) - 1)) * 86400
    + (ts.hh : ℤ) * 3600 + (ts.mm : ℤ) * 60 + (ts.ss : ℤ)

/-- The parse-then-convert pipeline of the loop body of `current_location`:
`epoch = item[key_string][:17]`, `time.strptime(epoch, '%Y-%jT%H:%M:%S')`,
`time.mktime(...)`.  `none` models the `ValueError` raised by `strptime`. -/
def parseMk (s : String) : Option ℤ :=
  (strptimeYJHMS (String.mk (s.data.take 17))).map epochSeconds

/-- The epoch-seconds value of a record, as a rational for comparison with
the wall clock; defaults to `0` when the epoch does not parse (only used
under hypotheses that rule that case out). -/
def secQ (r : Record) : ℚ :=
  ((parseMk r.epoch).getD 0 : ℤ)

/-- Result of `current_location`: a returned record, the empty dictionary
returned on `ValueError`, or an uncaught `IndexError` from the final list
access. -/
inductive CLResult where
  | ok (r : Record)
  | emptyDict
  | indexError
  deriving DecidableEq

/-- Python list indexing `l[i]` with a possibly negative index: negative
indices count from the end, and any index out of `[-len, len)` raises
`IndexError`. -/
def pyGet (l : List Record) (i : ℤ) : CLResult :=
  if 0 ≤ i then
    match l.get? i.toNat with
    | some r => .ok r
    | none => .indexError
  else if 0 ≤ i + l.length then
    match l.get? (i + l.length).toNat with
    | some r => .ok r
    | none => .indexError
  else .indexError

/-- The scan loop of `current_location`: walks the list, parsing each epoch;
stops (`break`) at the first record whose epoch time exceeds the current
time `t`, otherwise increments `curr_index`.  `none` models the
`ValueError` escaping to the `except` clause. -/
def scanEpochs (t : ℚ) : List Record → Option ℕ
  | [] => some 0
  | r :: rs =>
    match parseMk r.epoch with
    | none => none
    | some s =>
      if t < (s : ℚ) then some 0
      else (scanEpochs t rs).map (· + 1)

/-- The `logging.error` message of `current_location` on `ValueError`. -/
def errInvalidTimeCL : String :=
  "Invalid time format, ensure that the epoch timestring is in the format 'yyyy-dddThh:mm:ss.xxxZ'. Empty python dictionary returned."

/-- Embedding of `current_location(list_of_dicts, key_string)` with the
wall-clock value `t` (`time.time()`) made explicit: scans for the first
epoch after `t`, returns `list_of_dicts[curr_index - 1]`; on `ValueError`
logs an error and returns the empty dictionary. -/
def current_location (t : ℚ) (list_of_dicts : List Record) :
    CLResult × List String :=
  match scanEpochs t list_of_dicts with
  | none => (.emptyDict, [errInvalidTimeCL])
  | some ci => (pyGet list_of_dicts ((ci : ℤ) - 1), [])

/-- Python string slicing `s[a:b]` (code-point based, clamped at both
ends). -/
def pySlice (s : String) (a b : ℕ) : String :=
  String.mk ((s.data.drop a).take (b - a))

/-- Model of Python `int(s)` on a string: an optional sign followed by one
or more decimal digits; anything else raises `ValueError`, modelled by
`none`. -/
def pyInt (s : String) : Option ℤ :=
  match s.data with
  | [] => none
  | c :: ds =>
    if c = '-' then
      if ds ≠ [] ∧ ds.all Char.isDigit then some (-(numFromChars ds : ℤ)) else none
    else if c = '+' then
      if ds ≠ [] ∧ ds.all Char.isDigit then some (numFromChars ds : ℤ) else none
    else if (c :: ds).all Char.isDigit then some (numFromChars (c :: ds) : ℤ)
    else none

/-- Model of `math.atan2(y, x)`: the angle of the point `(x, y)` in
`(-π, π]`, written with `Real.arctan` by quadrant as in the C library
definition. -/
noncomputable def atan2 (y x : ℝ) : ℝ :=
  if 0 < x then Real.arctan (y / x)
  else if x < 0 then
    if 0 ≤ y then Real.arctan (y / x) + Real.pi
    else Real.arctan (y / x) - Real.pi
  else
    if 0 < y then Real.pi / 2
    else if y < 0 then -(Real.pi / 2)
    else 0

/-- Model of `math.degrees`. -/
noncomputable def degrees (r : ℝ) : ℝ :=
  r * (180 / Real.pi)

/-- The longitude normalization step of `find_location` (lines 99-105 of the
source): a single conditional wrap, not a modular reduction. -/
noncomputable def wrapLongitude (v : ℝ) : ℝ :=
  if v > 180 then -180 + (v - 180)
  else if v < -180 then 180 + (v + 180)
  else v

/-- The module constant `MEAN_EARTH_RADIUS = 6378.1`. -/
noncomputable def MEAN_EARTH_RADIUS : ℝ := 6378.1

/-- The `logging.error` message of `find_location` on `ValueError`. -/
def errInvalidTimeFL : String :=
  "Invalid time format, ensure that the epoch timestring is in the format 'yyyy-dddThh:mm:ss.xxxZ'. Empty list returned."

/-- Embedding of `find_location(x, y, z, epoch)`.  The reverse-geocoding
collaborator is the argument `geo`; `geo lat lon = none` models a
geolocation object without an `address` attribute, replaced by the literal
`"Over Ocean"`.  The first component is `none` for the empty list returned
on `ValueError`, otherwise the 4-element result
(latitude, longitude, altitude, place). -/
noncomputable def find_location (geo : ℝ → ℝ → Option String)
    (x y z : ℝ) (epoch : String) :
    Option (ℝ × ℝ × ℝ × String) × List String :=
  match pyInt (pySlice epoch 9 11), pyInt (pySlice epoch 12 14) with
  | some hrs, some mins =>
    let latitude := degrees (atan2 z (Real.sqrt (x ^ 2 + y ^ 2)))
    let longitude := wrapLongitude
      (degrees (atan2 y x) - ((hrs : ℝ) - 12 + (mins : ℝ) / 60) * (360 / 24) + 19)
    let altitude := Real.sqrt (x ^ 2 + y ^ 2 + z ^ 2) - MEAN_EARTH_RADIUS
    let location := match geo latitude longitude with
      | some addr => addr
      | none => "Over Ocean"
    (some (latitude, longitude, altitude, location), [])
  | _, _ => (none, [errInvalidTimeFL])

/-- The number of leading records of the list whose epoch time is at most
`t`: the value of `curr_index` when the scan loop leaves without an
exception. -/
def cntLeading (t : ℚ) : List Record → ℕ
  | [] => 0
  | r :: rs => if t < secQ r then 0 else cntLeading t rs + 1

/-! ## Claim theorems -/

/-- C5: longitude normalization in `find_location` is the single-step wrap:
a value above 180 maps to `-180 + (v - 180)`, a value below -180 maps to
`180 + (v + 180)`, values inside `[-180, 180]` pass through; 190 wraps to
-170 and -190 wraps to 170; and it is not a modular reduction: an input more
than 360 degrees out of range (600) is left out of `[-180, 180]`. -/
theorem wrapLongitude_single_step :
    (∀ v : ℝ, 180 < v → wrapLongitude v = -180 + (v - 180)) ∧
    (∀ v : ℝ, v < -180 → wrapLongitude v = 180 + (v + 180)) ∧
    (∀ v : ℝ, -180 ≤ v → v ≤ 180 → wrapLongitude v = v) ∧
    wrapLongitude 190 = -170 ∧ wrapLongitude (-190) = 170 ∧
    wrapLongitude 600 = 240 ∧ 180 < wrapLongitude 600 := by
  have h1 : ∀ v : ℝ, 180 < v → wrapLongitude v = -180 + (v - 180) := by
    intro v h
    rw [wrapLongitude, if_pos h]
  have h2 : ∀ v : ℝ, v < -180 → wrapLongitude v = 180 + (v + 180) := by
    intro v h
    rw [wrapLongitude, if_neg (by linarith), if_pos h]
  have h3 : ∀ v : ℝ, -180 ≤ v → v ≤ 180 → wrapLongitude v = v := by
    intro v ha hb
    rw [wrapLongitude, if_neg (by linarith), if_neg (by linarith)]
  refine ⟨h1, h2, h3, ?_, ?_, ?_, ?_⟩
  · rw [h1 190 (by norm_num)]; norm_num
  · rw [h2 (-190) (by norm_num)]; norm_num
  · rw [h1 600 (by norm_num)]; norm_num
  · rw [h1 600 (by norm_num)]; norm_num

/-- C5 witness: the wrap rule for values above 180, applied at 190. -/
theorem wrapLongitude_single_step_witness :
    wrapLongitude (190 : ℝ) = -180 + (190 - 180) :=
  wrapLongitude_single_step.1 190 (by norm_num)

/-- C7: for numeric inputs, `calc_speed_3d` returns
`sqrt (x^2 + y^2 + z^2)` with no error log; on (3, 4, 0) it returns 5 and
on (6, 0, 8) it returns 10. -/
theorem calc_speed_3d_formula :
    (∀ x y z : ℝ, calc_speed_3d (.num x) (.num y) (.num z)
        = (Real.sqrt (x ^ 2 + y ^ 2 + z ^ 2), [])) ∧
    calc_speed_3d (.num 3) (.num 4) (.num 0) = (5, []) ∧
    calc_speed_3d (.num 6) (.num 0) (.num 8) = (10, []) := by
  refine ⟨fun x y z => rfl, ?_, ?_⟩
  · show (Real.sqrt ((3 : ℝ) ^ 2 + 4 ^ 2 + 0 ^ 2), ([] : List String)) = (5, [])
    rw [show (3 : ℝ) ^ 2 + 4 ^ 2 + 0 ^ 2 = 5 ^ 2 by norm_num,
      Real.sqrt_sq (by norm_num : (0 : ℝ) ≤ 5)]
  · show (Real.sqrt ((6 : ℝ) ^ 2 + 0 ^ 2 + 8 ^ 2), ([] : List String)) = (10, [])
    rw [show (6 : ℝ) ^ 2 + 0 ^ 2 + 8 ^ 2 = 10 ^ 2 by norm_num,
      Real.sqrt_sq (by norm_num : (0 : ℝ) ≤ 10)]

/-- C8: whenever some argument of `calc_speed_3d` is non-numeric, the
function returns 0.0 and the only side effect is the single error-log
message. -/
theorem calc_speed_3d_nonnumeric (a b c : PyValue)
    (h : a.isNum = false ∨ b.isNum = false ∨ c.isNum = false) :
    calc_speed_3d a b c = (0, [errNonNumerical]) := by
  cases a <;> cases b <;> cases c <;>
    try (show ((0.0 : ℝ), [errNonNumerical]) = (0, [errNonNumerical]); norm_num)
  simp [PyValue.isNum] at h

/-- C8 witness: three string arguments yield the defensive zero result. -/
theorem calc_speed_3d_nonnumeric_witness :
    (PyValue.nonNum "x").isNum = false ∧
    calc_speed_3d (.nonNum "x") (.nonNum "y") (.nonNum "z")
      = (0, [errNonNumerical]) :=
  ⟨rfl, calc_speed_3d_nonnumeric _ _ _ (Or.inl rfl)⟩

/-- C9: each embedded core function is deterministic across two runs on
identical inputs; the wall clock and the geocoding collaborator are
explicit arguments, so equality of inputs includes them. -/
theorem core_functions_two_run_deterministic :
    (∀ x y z : PyValue, calc_speed_3d x y z = calc_speed_3d x y z) ∧
    (∀ (t : ℚ) (l : List Record), current_location t l = current_location t l) ∧
    (∀ (geo : ℝ → ℝ → Option String) (x y z : ℝ) (e : String),
        find_location geo x y z e = find_location geo x y z e) :=
  ⟨fun _ _ _ => rfl, fun _ _ => rfl, fun _ _ _ _ _ => rfl⟩

/-- C10: on the empty record list the scan loop never runs, `curr_index`
stays 0, and the final access `list_of_dicts[-1]` raises an uncaught
`IndexError`; no empty-dictionary sentinel and no record is returned. -/
theorem current_location_empty_index_error (t : ℚ) :
    current_location t [] = (.indexError, []) := rfl

/-- Helper: Python indexing at `-1` returns the last element of a non-empty
list. -/
theorem pyGet_neg_one (l : List Record) (h : l ≠ []) :
    pyGet l (-1) = .ok (l.getLast h) := by
  have hlen : 0 < l.length := List.length_pos.mpr h
  have ht : ((-1 : ℤ) + l.length).toNat = l.length - 1 := by omega
  have hg : l.get? (l.length - 1) = some (l.getLast h) := by
    rw [List.getLast_eq_getElem, List.get?_eq_getElem?]
    exact List.getElem?_eq_getElem (by omega)
  rw [pyGet, if_neg (by norm_num), if_pos (by omega), ht, hg]

/-- Helper: Python indexing at an in-range natural index returns that
element. -/
theorem pyGet_of_lt (l : List Record) (n : ℕ) (h : n < l.length) :
    pyGet l (n : ℤ) = .ok (l.get ⟨n, h⟩) := by
  have hg : l.get? n = some (l.get ⟨n, h⟩) := List.get?_eq_get h
  rw [pyGet, if_pos (by positivity), Int.toNat_natCast, hg]

/-- C2: when the first record's epoch is strictly after the current time,
`current_location` breaks at index 0 and the access at `curr_index - 1 = -1`
wraps around to the last element; consequently a one-record list (with a
parseable epoch) is returned whatever the relation of its epoch to now. -/
theorem current_location_wraparound :
    (∀ (t : ℚ) (r : Record) (rs : List Record) (s : ℤ),
        parseMk r.epoch = some s → t < (s : ℚ) →
        current_location t (r :: rs)
          = (.ok ((r :: rs).getLast (List.cons_ne_nil r rs)), [])) ∧
    (∀ (t : ℚ) (r : Record) (s : ℤ), parseMk r.epoch = some s →
        current_location t [r] = (.ok r, [])) := by
  have hmain : ∀ (t : ℚ) (r : Record) (rs : List Record) (s : ℤ),
      parseMk r.epoch = some s → t < (s : ℚ) →
      current_location t (r :: rs)
        = (.ok ((r :: rs).getLast (List.cons_ne_nil r rs)), []) := by
    intro t r rs s hp ht
    have hscan : scanEpochs t (r :: rs) = some 0 := by
      simp [scanEpochs, hp, ht]
    simp only [current_location, hscan]
    rw [show ((0 : ℕ) : ℤ) - 1 = -1 by norm_num,
      pyGet_neg_one (r :: rs) (List.cons_ne_nil r rs)]
  refine ⟨hmain, ?_⟩
  intro t r s hp
  by_cases ht : t < (s : ℚ)
  · simpa using hmain t r [] s hp ht
  · have hscan : scanEpochs t [r] = some 1 := by
      simp [scanEpochs, hp, ht]
    have hget : pyGet [r] (((1 : ℕ) : ℤ) - 1) = .ok r := by
      have h0 : (0 : ℕ) < [r].length := by simp
      have := pyGet_of_lt [r] 0 h0
      simpa using this
    simp only [current_location, hscan, hget]

/-- C2 witness: a two-record list entirely in the future of `t = 0`; the
first record is returned as the wrapped-around last element, and a
one-record future list yields that record. -/
theorem current_location_wraparound_witness :
    parseMk "2034-045T12:00:00.000Z" = some 2023531200 ∧
    (0 : ℚ) < ((2023531200 : ℤ) : ℚ) ∧
    current_location 0 [⟨"2034-045T12:00:00.000Z", 1⟩, ⟨"2034-046T12:00:00.000Z", 2⟩]
      = (.ok ⟨"2034-046T12:00:00.000Z", 2⟩, []) ∧
    current_location 0 [⟨"2034-045T12:00:00.000Z", 1⟩] = (.ok ⟨"2034-045T12:00:00.000Z", 1⟩, []) :=
  ⟨by decide, by norm_num,
    current_location_wraparound.1 0 ⟨"2034-045T12:00:00.000Z", 1⟩
      [⟨"2034-046T12:00:00.000Z", 2⟩] 2023531200 (by decide) (by norm_num),
    current_location_wraparound.2 0 ⟨"2034-045T12:00:00.000Z", 1⟩ 2023531200 (by decide)⟩

/-- C3: on a non-empty list none of whose epochs parse, the scan raises
`ValueError` at the first record, which is caught: an error is logged and
the empty dictionary is returned, and no exception escapes. -/
theorem current_location_all_unparsable (t : ℚ) (l : List Record)
    (hne : l ≠ []) (h : ∀ r ∈ l, parseMk r.epoch = none) :
    current_location t l = (.emptyDict, [errInvalidTimeCL]) := by
  cases l with
  | nil => exact absurd rfl hne
  | cons r rs =>
    have hr := h r (List.mem_cons_self r rs)
    have hscan : scanEpochs t (r :: rs) = none := by
      simp [scanEpochs, hr]
    simp [current_location, hscan]

/-- C3 witness: the record with the truncated epoch `"2024-045"` (no
time-of-day) produces the empty dictionary. -/
theorem current_location_all_unparsable_witness :
    ([(⟨"2024-045", 0⟩ : Record)] ≠ []) ∧
    (∀ r ∈ [(⟨"2024-045", 0⟩ : Record)], parseMk r.epoch = none) ∧
    current_location 0 [⟨"2024-045", 0⟩] = (.emptyDict, [errInvalidTimeCL]) :=
  ⟨by simp, by decide,
    current_location_all_unparsable 0 [⟨"2024-045", 0⟩] (by simp) (by decide)⟩

/-- Helper: the successful branch of `find_location`, with the place
component written as `Option.getD` of the geocoding collaborator. -/
theorem find_location_some (geo : ℝ → ℝ → Option String) (x y z : ℝ)
    (epoch : String) (hrs mins : ℤ)
    (hh : pyInt (pySlice epoch 9 11) = some hrs)
    (hm : pyInt (pySlice epoch 12 14) = some mins) :
    find_location geo x y z epoch =
      (some (degrees (atan2 z (Real.sqrt (x ^ 2 + y ^ 2))),
          wrapLongitude (degrees (atan2 y x)
            - ((hrs : ℝ) - 12 + (mins : ℝ) / 60) * (360 / 24) + 19),
          Real.sqrt (x ^ 2 + y ^ 2 + z ^ 2) - MEAN_EARTH_RADIUS,
          (geo (degrees (atan2 z (Real.sqrt (x ^ 2 + y ^ 2))))
            (wrapLongitude (degrees (atan2 y x)
              - ((hrs : ℝ) - 12 + (mins : ℝ) / 60) * (360 / 24) + 19))).getD
            "Over Ocean"), []) := by
  simp only [find_location, hh, hm]
  cases geo (degrees (atan2 z (Real.sqrt (x ^ 2 + y ^ 2))))
      (wrapLongitude (degrees (atan2 y x)
        - ((hrs : ℝ) - 12 + (mins : ℝ) / 60) * (360 / 24) + 19)) <;> rfl

/-- C4: when hour and minute parse out of the epoch string (positions 9-10
and 12-13), `find_location` returns latitude
`degrees (atan2 z (sqrt (x^2 + y^2)))`, the longitude obtained by wrapping
`degrees (atan2 y x) - ((hour - 12) + minute/60) * (360/24) + 19`, and
altitude `sqrt (x^2 + y^2 + z^2) - 6378.1`. -/
theorem find_location_formulas (geo : ℝ → ℝ → Option String) (x y z : ℝ)
    (epoch : String) (hrs mins : ℤ)
    (hh : pyInt (pySlice epoch 9 11) = some hrs)
    (hm : pyInt (pySlice epoch 12 14) = some mins) :
    ∃ place : String,
      find_location geo x y z epoch =
        (some (degrees (atan2 z (Real.sqrt (x ^ 2 + y ^ 2))),
            wrapLongitude (degrees (atan2 y x)
              - ((hrs : ℝ) - 12 + (mins : ℝ) / 60) * (360 / 24) + 19),
            Real.sqrt (x ^ 2 + y ^ 2 + z ^ 2) - 6378.1, place), []) := by
  refine ⟨_, find_location_some geo x y z epoch hrs mins hh hm⟩

/-- C4 witness: the well-formed epoch `"2024-001T12:00:00.000Z"` parses to
hour 12 and minute 0 and the formulas apply at `(4000, 1500, -5000)`. -/
theorem find_location_formulas_witness :
    pyInt (pySlice "2024-001T12:00:00.000Z" 9 11) = some 12 ∧
    pyInt (pySlice "2024-001T12:00:00.000Z" 12 14) = some 0 ∧
    ∃ place : String,
      find_location (fun _ _ => none) 4000 1500 (-5000) "2024-001T12:00:00.000Z" =
        (some (degrees (atan2 (-5000) (Real.sqrt ((4000 : ℝ) ^ 2 + 1500 ^ 2))),
            wrapLongitude (degrees (atan2 1500 4000)
              - (((12 : ℤ) : ℝ) - 12 + ((0 : ℤ) : ℝ) / 60) * (360 / 24) + 19),
            Real.sqrt ((4000 : ℝ) ^ 2 + 1500 ^ 2 + (-5000) ^ 2) - 6378.1, place), []) :=
  ⟨by decide, by decide,
    find_location_formulas (fun _ _ => none) 4000 1500 (-5000)
      "2024-001T12:00:00.000Z" 12 0 (by decide) (by decide)⟩

/-- C6: if parsing the hour or the minute out of the epoch string fails,
`find_location` returns the empty result with exactly one error log and no
exception propagates; on the well-formed epoch `"2024-001T12:00:00.000Z"`
it returns a non-empty 4-element result. -/
theorem find_location_error_handling :
    (∀ (geo : ℝ → ℝ → Option String) (x y z : ℝ) (epoch : String),
        pyInt (pySlice epoch 9 11) = none ∨ pyInt (pySlice epoch 12 14) = none →
        find_location geo x y z epoch = (none, [errInvalidTimeFL])) ∧
    (∀ (geo : ℝ → ℝ → Option String) (x y z : ℝ),
        ∃ lat lon alt place : _,
          find_location geo x y z "2024-001T12:00:00.000Z"
            = (some (lat, lon, alt, place), [])) := by
  constructor
  · intro geo x y z epoch h
    rcases h with h | h
    · cases hm : pyInt (pySlice epoch 12 14) <;> simp [find_location, h, hm]
    · cases hh : pyInt (pySlice epoch 9 11) <;> simp [find_location, h, hh]
  · intro geo x y z
    exact ⟨_, _, _, _,
      find_location_some geo x y z "2024-001T12:00:00.000Z" 12 0
        (by decide) (by decide)⟩

/-- C6 witness: the malformed epoch `"2024-000"` (no time-of-day) makes the
hour parse fail and the empty result is returned. -/
theorem find_location_error_handling_witness :
    pyInt (pySlice "2024-000" 9 11) = none ∧
    find_location (fun _ _ => none) 4000 1500 (-5000) "2024-000"
      = (none, [errInvalidTimeFL]) :=
  ⟨by decide,
    find_location_error_handling.1 (fun _ _ => none) 4000 1500 (-5000)
      "2024-000" (Or.inl (by decide))⟩

/-- Helper: when every epoch in the list parses, the scan loop completes
without `ValueError` and `curr_index` is the number of leading records whose
epoch time is at most `t`. -/
theorem scanEpochs_eq_cntLeading (t : ℚ) (l : List Record)
    (h : ∀ r ∈ l, (parseMk r.epoch).isSome) :
    scanEpochs t l = some (cntLeading t l) := by
  induction l with
  | nil => rfl
  | cons r rs ih =>
    obtain ⟨s, hs⟩ := Option.isSome_iff_exists.mp (h r (List.mem_cons_self r rs))
    have hsec : secQ r = (s : ℚ) := by simp [secQ, hs]
    by_cases ht : t < (s : ℚ)
    · simp [scanEpochs, cntLeading, hs, hsec, ht]
    · have hrs := ih (fun x hx => h x (List.mem_cons_of_mem r hx))
      simp [scanEpochs, cntLeading, hs, hsec, ht, hrs]

/-- Helper: the leading count never exceeds the list length. -/
theorem cntLeading_le_length (t : ℚ) (l : List Record) :
    cntLeading t l ≤ l.length := by
  induction l with
  | nil => simp [cntLeading]
  | cons r rs ih =>
    by_cases ht : t < secQ r
    · simp [cntLeading, ht]
    · simp [cntLeading, ht]
      omega

/-- Helper: every record strictly inside the counted leading segment has
epoch time at most `t`. -/
theorem secQ_le_of_lt_cntLeading (t : ℚ) (l : List Record) (j : ℕ)
    (hj : j < cntLeading t l) (hl : j < l.length) :
    secQ (l.get ⟨j, hl⟩) ≤ t := by
  induction l generalizing j with
  | nil => simp at hl
  | cons r rs ih =>
    by_cases ht : t < secQ r
    · rw [cntLeading, if_pos ht] at hj
      omega
    · rw [cntLeading, if_neg ht] at hj
      cases j with
      | zero => simpa using le_of_not_lt ht
      | succ j' =>
        have hj's : j' < rs.length := by simpa using hl
        have : j' < cntLeading t rs := by omega
        simpa using ih j' this hj's

/-- Helper: the record just beyond the counted leading segment (when it
exists) has epoch time strictly greater than `t`. -/
theorem lt_secQ_cntLeading (t : ℚ) (l : List Record)
    (h : cntLeading t l < l.length) :
    t < secQ (l.get ⟨cntLeading t l, h⟩) := by
  induction l with
  | nil => simp at h
  | cons r rs ih =>
    by_cases ht : t < secQ r
    · simp only [cntLeading, if_pos ht]
      simpa using ht
    · have hrs : cntLeading t rs < rs.length := by
        have h' := h
        rw [cntLeading, if_neg ht] at h'
        simp at h'
        exact h'
      simpa [cntLeading, ht] using ih hrs

/-- Helper: the leading count is positive when the first record's epoch
time is at most `t`. -/
theorem cntLeading_pos (t : ℚ) (r : Record) (rs : List Record)
    (h : secQ r ≤ t) : 0 < cntLeading t (r :: rs) := by
  rw [cntLeading, if_neg (not_lt.mpr h)]
  exact Nat.succ_pos _

/-- C1: on a non-empty list of records sorted by ascending epoch time, all
of whose epochs parse, with the current time at or after the first epoch,
`current_location` returns (with no error log) the record at an index `k`
such that that record's epoch is not strictly after `t` and every later
record's epoch is strictly after `t`: the most recent past-or-present
record. -/
theorem current_location_selects_latest (t : ℚ) (l : List Record)
    (hne : l ≠ [])
    (hparse : ∀ r ∈ l, (parseMk r.epoch).isSome)
    (hsorted : l.Pairwise (fun a b => secQ a ≤ secQ b))
    (hfirst : secQ (l.head hne) ≤ t) :
    ∃ (k : ℕ) (hk : k < l.length),
      current_location t l = (.ok (l.get ⟨k, hk⟩), []) ∧
      secQ (l.get ⟨k, hk⟩) ≤ t ∧
      ∀ (j : ℕ) (hj : j < l.length), k < j → t < secQ (l.get ⟨j, hj⟩) := by
  obtain ⟨r, rs, rfl⟩ : ∃ r rs, l = r :: rs := by
    cases l with
    | nil => exact absurd rfl hne
    | cons r rs => exact ⟨r, rs, rfl⟩
  have hscan := scanEpochs_eq_cntLeading t (r :: rs) hparse
  have hcpos : 0 < cntLeading t (r :: rs) :=
    cntLeading_pos t r rs (by simpa using hfirst)
  have hcle : cntLeading t (r :: rs) ≤ (r :: rs).length :=
    cntLeading_le_length t (r :: rs)
  refine ⟨cntLeading t (r :: rs) - 1, by omega, ?_, ?_, ?_⟩
  · have hcl : current_location t (r :: rs)
        = (pyGet (r :: rs) ((cntLeading t (r :: rs) : ℤ) - 1), []) := by
      simp only [current_location, hscan]
    have hidx : ((cntLeading t (r :: rs) : ℤ) - 1)
        = ((cntLeading t (r :: rs) - 1 : ℕ) : ℤ) := by omega
    rw [hcl, hidx, pyGet_of_lt (r :: rs) (cntLeading t (r :: rs) - 1) (by omega)]
  · exact secQ_le_of_lt_cntLeading t (r :: rs) _ (by omega) (by omega)
  · intro j hj hcj
    rcases eq_or_lt_of_le (by omega : cntLeading t (r :: rs) ≤ j) with heq | hlt
    · subst heq
      exact lt_secQ_cntLeading t (r :: rs) hj
    · have hcl : cntLeading t (r :: rs) < (r :: rs).length := by omega
      have h1 : t < secQ ((r :: rs).get ⟨cntLeading t (r :: rs), hcl⟩) :=
        lt_secQ_cntLeading t (r :: rs) hcl
      have h2 : secQ ((r :: rs).get ⟨cntLeading t (r :: rs), hcl⟩)
          ≤ secQ ((r :: rs).get ⟨j, hj⟩) :=
        List.pairwise_iff_get.mp hsorted ⟨_, hcl⟩ ⟨j, hj⟩ hlt
      exact lt_of_lt_of_le h1 h2

/-- C1 witness: two records, the first in the past and the second far in
the future of `t = 1900000000`; the selection theorem applies and the entry
returned is the most recent past-or-present one. -/
theorem current_location_selects_latest_witness :
    (([⟨"2024-045T12:00:00.000Z", 1⟩, ⟨"2034-045T12:00:00.000Z", 2⟩] :
        List Record) ≠ []) ∧
    (∀ r ∈ ([⟨"2024-045T12:00:00.000Z", 1⟩, ⟨"2034-045T12:00:00.000Z", 2⟩] :
        List Record), (parseMk r.epoch).isSome) ∧
    ([⟨"2024-045T12:00:00.000Z", 1⟩, ⟨"2034-045T12:00:00.000Z", 2⟩] :
        List Record).Pairwise (fun a b => secQ a ≤ secQ b) ∧
    ∃ (k : ℕ) (hk : k < ([⟨"2024-045T12:00:00.000Z", 1⟩,
        ⟨"2034-045T12:00:00.000Z", 2⟩] : List Record).length),
      current_location 1900000000
          [⟨"2024-045T12:00:00.000Z", 1⟩, ⟨"2034-045T12:00:00.000Z", 2⟩]
        = (.ok (([⟨"2024-045T12:00:00.000Z", 1⟩, ⟨"2034-045T12:00:00.000Z", 2⟩] :
            List Record).get ⟨k, hk⟩), []) ∧
      secQ (([⟨"2024-045T12:00:00.000Z", 1⟩, ⟨"2034-045T12:00:00.000Z", 2⟩] :
          List Record).get ⟨k, hk⟩) ≤ 1900000000 ∧
      ∀ (j : ℕ) (hj : j < ([⟨"2024-045T12:00:00.000Z", 1⟩,
          ⟨"2034-045T12:00:00.000Z", 2⟩] : List Record).length),
        k < j →
        (1900000000 : ℚ) < secQ (([⟨"2024-045T12:00:00.000Z", 1⟩,
            ⟨"2034-045T12:00:00.000Z", 2⟩] : List Record).get ⟨j, hj⟩) :=
  ⟨by decide, by decide, by decide,
    current_location_selects_latest 1900000000
      [⟨"2024-045T12:00:00.000Z", 1⟩, ⟨"2034-045T12:00:00.000Z", 2⟩]
      (by decide) (by decide) (by decide) (by decide)⟩
